import Mathlib

/-!
Shallow embedding of `src/index.js` of tuvix-bot, a Probot GitHub app that
relays pull-request lifecycle events to Slack workspaces.

JavaScript strings are modelled by Lean `String` (one `Char` per code unit;
all strings appearing in the program and its payloads are ASCII, where the
two notions coincide).  JavaScript numbers are modelled by `Nat`/`Int`/`ℚ`:
every numeric value the program manipulates (PR numbers, millisecond counts,
their quotients by 1000) is exactly representable, so IEEE-754 rounding is
not observable at the granularity modelled here.
-/

namespace TuvixBot

/-- JS `str.substring(a, b)` for the in-range uses of this program
(`a = 0`, `b ≥ 0`): the code units from index `a` (inclusive) to `b`
(exclusive), clamped to the string length. -/
def jsSubstring (s : String) (a b : Nat) : String :=
  String.mk ((s.toList.drop a).take (b - a))

/-- JS `str.indexOf(c)` for a single-character needle: the index of the
first occurrence of `c`, or `-1` when there is none. -/
def jsIndexOfChar (s : String) (c : Char) : Int :=
  match s.toList.findIdx? (fun x => x == c) with
  | some i => (i : Int)
  | none => -1

/-- JS `str.toLowerCase()`: character-wise lowering (ASCII case mapping;
every label this program compares is ASCII). -/
def jsToLowerCase (s : String) : String :=
  String.mk (s.toList.map Char.toLower)

/-- JS `arr.findIndex(p)`: index of the first element satisfying `p`,
or `-1` when there is none. -/
def jsFindIndex (p : α → Bool) (l : List α) : Int :=
  match l.findIdx? p with
  | some i => (i : Int)
  | none => -1

/-- Function `trunc` from src/index.js lines 34-36: shorten `str` to `len`
characters, appending an ellipsis when the cut fired. -/
def trunc (str : String) (len : Nat) : String :=
  if str.length > len then jsSubstring str 0 len ++ "..." else str

/-- Function `cutAtFirstNewline` from src/index.js lines 42-44: cut `str` at the
first newline, appending an ellipsis when the cut fired. -/
def cutAtFirstNewline (str : String) : String :=
  if jsIndexOfChar str '\n' ≥ 0 then
    jsSubstring str 0 (jsIndexOfChar str '\n').toNat ++ "..."
  else str

/-! ### ECMAScript `Date` / timestamp model

The handlers evaluate `new Date(isoString) / 1000`.  `new Date(s)` on the
UTC ISO-8601 strings GitHub sends (`YYYY-MM-DDTHH:MM:SS.mmmZ`, proleptic
Gregorian, years ≥ 1970) yields the count of milliseconds since the Unix
epoch; dividing the resulting `Date` by 1000 coerces it to that number and
divides, which we model as exact rational division. -/

def isLeap (y : Nat) : Bool :=
  (y % 4 == 0 && y % 100 != 0) || y % 400 == 0

def monthLengths (leap : Bool) : List Nat :=
  [31, if leap then 29 else 28, 31, 30, 31, 30, 31, 31, 30, 31, 30, 31]

def daysBeforeMonth (leap : Bool) (m : Nat) : Nat :=
  ((monthLengths leap).take (m - 1)).foldl (fun a b => a + b) 0

def leapDaysBefore (y : Nat) : Nat :=
  (List.range (y - 1970)).foldl
    (fun a i => a + (if isLeap (1970 + i) then 1 else 0)) 0

/-- Days from 1970-01-01 to the civil date `y-m-d` (UTC, `y ≥ 1970`). -/
def daysSinceEpoch (y m d : Nat) : Nat :=
  365 * (y - 1970) + leapDaysBefore y + daysBeforeMonth (isLeap y) m + (d - 1)

def digitVal (c : Char) : Nat := c.toNat - 48

def natOfDigits (cs : List Char) : Nat :=
  cs.foldl (fun a c => a * 10 + digitVal c) 0

def sliceNat (cs : List Char) (a b : Nat) : Nat :=
  natOfDigits ((cs.drop a).take (b - a))

/-- Milliseconds since the Unix epoch of an ISO-8601 UTC timestamp
`YYYY-MM-DDTHH:MM:SS.mmmZ`, the format GitHub webhook payloads carry. -/
def parseISOms (s : String) : Nat :=
  let cs := s.toList
  let y := sliceNat cs 0 4
  let mo := sliceNat cs 5 7
  let d := sliceNat cs 8 10
  let h := sliceNat cs 11 13
  let mi := sliceNat cs 14 16
  let sec := sliceNat cs 17 19
  let ms := sliceNat cs 20 23
  ((daysSinceEpoch y mo d) * 24 + h) * 3600000 + mi * 60000 + sec * 1000 + ms

/-- JS `msCount / 1000`: exact division of the millisecond count. -/
def epochSeconds (ms : Nat) : ℚ := (ms : ℚ) / 1000

/-- Value of `new Date(s) / 1000` on an ISO-8601 UTC timestamp string. -/
def tsOfISO (s : String) : ℚ := epochSeconds (parseISOms s)

/-! ### Webhook payload model

The fields each handler destructures from `context.payload`.  Fields that
only some event kinds carry (`label`, `review`, `merged_by`, ...) are kept
total: a handler only reads the ones present for its event, per the GitHub
payload schema. -/

structure GhUser where
  login : String
  avatar_url : String
  html_url : String
  deriving Repr, DecidableEq

structure GhLabel where
  name : String
  deriving Repr, DecidableEq

structure GhBase where
  ref : String
  deriving Repr, DecidableEq

structure GhPullRequest where
  html_url : String
  title : String
  created_at : String
  number : Nat
  user : GhUser
  labels : List GhLabel
  merged : Bool
  merged_at : String
  merged_by : GhUser
  closed_at : String
  base : GhBase
  deriving Repr, DecidableEq

structure GhRepository where
  full_name : String
  html_url : String
  deriving Repr, DecidableEq

structure GhReview where
  state : String
  body : String
  user : GhUser
  submitted_at : String
  deriving Repr, DecidableEq

structure Payload where
  label : GhLabel
  pull_request : GhPullRequest
  repository : GhRepository
  sender : GhUser
  review : GhReview
  deriving Repr, DecidableEq

/-! ### Slack message model

The shape of the object literals each handler passes to
`sendSlackMessage`.  A default value stands for a field the corresponding
JS object literal does not set. -/

structure SectionText where
  type : String
  text : String
  deriving Repr, DecidableEq

structure Block where
  type : String
  text : SectionText
  deriving Repr, DecidableEq

structure Attachment where
  color : String := ""
  author_name : String := ""
  author_icon : String := ""
  author_link : String := ""
  title : String := ""
  title_link : String := ""
  footer : String := ""
  footer_icon : String := ""
  ts : ℚ := 0
  text : Option String := none
  deriving Repr, DecidableEq

structure SlackMessage where
  text : Option String := none
  blocks : List Block := []
  attachments : List Attachment := []
  channel : Option String := none
  deriving Repr, DecidableEq

/-- The GitHub mark icon URL each handler sets as `footer_icon`. -/
def ghMarkIcon : String :=
  "https://github.githubassets.com/images/modules/logos_page/GitHub-Mark.png"

/-- Line 13: `const PR_LABEL = process.env.PR_LABEL.toLowerCase()`. -/
def mkPrLabel (envLabel : String) : String := jsToLowerCase envLabel

/-- Function `isTargeted` from src/index.js lines 21-27: does the PR carry a label
whose `name` equals the (already lowercased) `PR_LABEL` constant? -/
def isTargeted (PR_LABEL : String) (payload : Payload) : Bool :=
  if jsFindIndex (fun label => label.name == PR_LABEL)
      payload.pull_request.labels < 0 then
    false
  else
    true

/-- Function `handleLabeled` from src/index.js lines 101-151, returning the message
it passes to `sendSlackMessage` (`none` on the early return; the handler
performs no other observable action). -/
def handleLabeled (PR_LABEL : String) (payload : Payload) : Option SlackMessage :=
  let labelName := payload.label.name
  if jsToLowerCase labelName != PR_LABEL then
    none
  else
    let repo := payload.repository.full_name
    let repoURL := payload.repository.html_url
    let prURL := payload.pull_request.html_url
    let prTitle := payload.pull_request.title
    let prCreatedAt := payload.pull_request.created_at
    let prNumber := payload.pull_request.number
    let user := payload.pull_request.user
    let sender := payload.sender
    some
      { blocks := [
          { type := "section",
            text := { type := "mrkdwn",
                      text := sender.login ++ " is requesting a review in <"
                        ++ repoURL ++ "|" ++ repo ++ ">" } }],
        attachments := [
          { color := "#FFC107",
            author_name := user.login,
            author_icon := user.avatar_url,
            author_link := user.html_url,
            title := "#" ++ toString prNumber ++ " - " ++ prTitle,
            title_link := prURL,
            footer := repo,
            footer_icon := ghMarkIcon,
            ts := tsOfISO prCreatedAt }] }

/-- Function `handleClosed` from src/index.js lines 158-203.  The JS builds the
attachment by mutation: a base object literal, then the merged or closed
branch sets the author, title and timestamp fields; modelled with a base
record updated by the branch. -/
def handleClosed (PR_LABEL : String) (payload : Payload) : Option SlackMessage :=
  if !isTargeted PR_LABEL payload then
    none
  else
    let prURL := payload.pull_request.html_url
    let prNumber := payload.pull_request.number
    let mergedAt := payload.pull_request.merged_at
    let mergedBy := payload.pull_request.merged_by
    let wasMerged := payload.pull_request.merged
    let closedAt := payload.pull_request.closed_at
    let baseRef := payload.pull_request.base.ref
    let repo := payload.repository.full_name
    let sender := payload.sender
    let attachment : Attachment :=
      { color := "#607D8B",
        title_link := prURL,
        footer := repo,
        footer_icon := ghMarkIcon }
    let attachment :=
      if wasMerged then
        { attachment with
          author_name := mergedBy.login,
          author_icon := mergedBy.avatar_url,
          author_link := mergedBy.html_url,
          title := "Merged #" ++ toString prNumber ++ " into " ++ baseRef,
          ts := tsOfISO mergedAt }
      else
        { attachment with
          author_name := sender.login,
          author_icon := sender.avatar_url,
          author_link := sender.html_url,
          title := "Closed #" ++ toString prNumber,
          ts := tsOfISO closedAt }
    some { text := some "", attachments := [attachment] }

/-- Function `handleReopened` from src/index.js lines 210-246. -/
def handleReopened (PR_LABEL : String) (payload : Payload) : Option SlackMessage :=
  if !isTargeted PR_LABEL payload then
    none
  else
    let repo := payload.repository.full_name
    let prURL := payload.pull_request.html_url
    let prTitle := payload.pull_request.title
    let prCreatedAt := payload.pull_request.created_at
    let prNumber := payload.pull_request.number
    let sender := payload.sender
    some
      { text := some "",
        attachments := [
          { color := "#FFC107",
            author_name := sender.login,
            author_icon := sender.avatar_url,
            author_link := sender.html_url,
            title := "Reopened #" ++ toString prNumber ++ " - " ++ prTitle,
            title_link := prURL,
            footer := repo,
            footer_icon := ghMarkIcon,
            ts := tsOfISO prCreatedAt }] }

/-- Function `handleReviewSubmitted` from src/index.js lines 253-293.  The guard at
line 260 admits only the `approved` and `changes_requested` states; the JS
then mutates a base attachment in one of two `if` branches (the fall-through
that sets neither color nor title is unreachable under the guard). -/
def handleReviewSubmitted (PR_LABEL : String) (payload : Payload) : Option SlackMessage :=
  if !isTargeted PR_LABEL payload then
    none
  else if payload.review.state != "approved"
      && payload.review.state != "changes_requested" then
    none
  else
    let reviewState := payload.review.state
    let reviewBody := payload.review.body
    let reviewUser := payload.review.user
    let reviewSubmittedAt := payload.review.submitted_at
    let repo := payload.repository.full_name
    let prURL := payload.pull_request.html_url
    let prTitle := payload.pull_request.title
    let prNumber := payload.pull_request.number
    let attachment : Attachment :=
      { author_name := reviewUser.login,
        author_icon := reviewUser.avatar_url,
        author_link := reviewUser.html_url,
        title_link := prURL,
        footer := repo,
        footer_icon := ghMarkIcon,
        ts := tsOfISO reviewSubmittedAt,
        text := some (trunc (cutAtFirstNewline reviewBody) 60) }
    let attachment :=
      if reviewState == "approved" then
        { attachment with
          color := "#388E3C",
          title := "Approved #" ++ toString prNumber ++ " - " ++ prTitle }
      else if reviewState == "changes_requested" then
        { attachment with
          color := "#D33A49",
          title := "Changes requested on #" ++ toString prNumber ++ " - " ++ prTitle }
      else
        attachment
    some { text := some "", attachments := [attachment] }

/-- The four webhook subscriptions registered at src/index.js lines 303-306. -/
inductive EventKind where
  | labeled
  | closed
  | reopened
  | reviewSubmitted
  deriving Repr, DecidableEq

/-- Dispatch of `module.exports` (lines 299-307): the handler bound to an
incoming event, returning the message it hands to the fan-out notifier. -/
def handleEvent (PR_LABEL : String) (e : EventKind) (payload : Payload) :
    Option SlackMessage :=
  match e with
  | .labeled => handleLabeled PR_LABEL payload
  | .closed => handleClosed PR_LABEL payload
  | .reopened => handleReopened PR_LABEL payload
  | .reviewSubmitted => handleReviewSubmitted PR_LABEL payload

/-! ### Fan-out notifier model (`getChannels`, `sendSlackMessage`)

A Slack `WebClient` is modelled by the responses its two API calls return
during one fan-out: the `users.conversations` listing, and `chat.postMessage`
keyed by the channel id (the only part of the posted message that varies).
A call either resolves to a response object or rejects; rejection reasons
and thrown `Error` objects are modelled by their message strings, and JS
template-interpolation of an `Error` (`${err}`) by `errString`. -/

structure SlackChannel where
  id : String
  name_normalized : String
  deriving Repr, DecidableEq

structure ConversationsResponse where
  ok : Bool
  error : String := ""
  channels : List SlackChannel := []
  deriving Repr, DecidableEq

structure PostMessageResponse where
  ok : Bool
  error : String := ""
  deriving Repr, DecidableEq

inductive ApiCall (α : Type) where
  | resolved (response : α)
  | rejected (err : String)
  deriving Repr, DecidableEq

structure ClientBehavior where
  conversations : ApiCall ConversationsResponse
  postMessage : String → ApiCall PostMessageResponse

/-- JS stringification `${err}` of an `Error` carrying message `e`. -/
def errString (e : String) : String := "Error: " ++ e

/-- Function `getChannels` from src/index.js lines 50-60: both a rejected
`users.conversations` call and a response with `ok: false` (whose locally
thrown error is caught by the same `try`) surface as one wrapped error. -/
def getChannels (client : ClientBehavior) : Except String (List SlackChannel) :=
  match client.conversations with
  | .rejected err =>
      .error ("Could not retrieve list of channels: " ++ errString err)
  | .resolved response =>
      if !response.ok then
        .error ("Could not retrieve list of channels: " ++ errString response.error)
      else
        .ok response.channels

/-- The per-channel callback at lines 74-84: the posted message is `msg`
with the channel id added; the result is the delivery (when the API
accepted the call) or the recorded channel-level error. -/
def postToChannel (client : ClientBehavior) (msg : SlackMessage)
    (channel : SlackChannel) :
    Option (String × SlackMessage) × Option String :=
  let message := { msg with channel := some channel.id }
  match client.postMessage channel.id with
  | .rejected err =>
      (none, some ("Unable to send message to slack channel "
        ++ channel.name_normalized ++ ": " ++ errString err))
  | .resolved response =>
      if !response.ok then
        (none, some ("Unable to send message to slack channel "
          ++ channel.name_normalized ++ ": " ++ errString response.error))
      else
        ((channel.id, message), none)

/-- One workspace callback (lines 70-89) run to completion: the deliveries
made and the errors it pushes onto `errors`.  A `getChannels` failure is
recorded as the single workspace-level error and no channel is attempted;
otherwise every listed channel is attempted independently. -/
def runWorkspaceCallback (msg : SlackMessage) (client : ClientBehavior) :
    List (String × SlackMessage) × List String :=
  match getChannels client with
  | .error err => ([], [err])
  | .ok channels =>
      let results := channels.map (postToChannel client msg)
      (results.filterMap Prod.fst, results.filterMap Prod.snd)

/-- Observable outcome of one `sendSlackMessage` invocation: the deliveries
accepted by the remote API, the eventual contents of the `errors` array
once every callback has settled, and the error lines actually printed by the final
length-check of the function. -/
structure SendOutcome where
  delivered : List (String × SlackMessage)
  errors : List String
  logged : List String
  deriving Repr, DecidableEq

/-- Function `sendSlackMessage` from src/index.js lines 66-94.

`slackClients.forEach(async (client) => ...)` only starts each callback:
an async function runs synchronously no further than its first `await`,
and the first `await` of each callback is the `users.conversations` network
call inside `getChannels` (reached before any `errors.push`).  The
`if (errors.length > 0)` check at line 91 runs synchronously right after
`forEach` returns, so it observes `errors` still empty and prints nothing;
the suspended callbacks then complete on the microtask queue, performing
the posts and pushing their errors.  Eventual `errors` contents are listed
workspace-major (their real interleaving is unordered; no claim below
depends on their order).  The function never throws: every fallible call
sits inside a `try` whose catch only pushes. -/
def sendSlackMessage (slackClients : List ClientBehavior)
    (msg : SlackMessage) : SendOutcome :=
  let errorsAtCheck : List String := []
  let logged := if errorsAtCheck.length > 0 then errorsAtCheck else []
  let results := slackClients.map (runWorkspaceCallback msg)
  { delivered := (results.map Prod.fst).flatten,
    errors := (results.map Prod.snd).flatten,
    logged := logged }

/-! ### Spec-side definitions

Definitions written from the words of the specification, to be compared with
the code-derived definitions above. -/

/-- Label comparison per the spec: two label names are equal
"case-insensitively". -/
def caseInsensitiveEq (a b : String) : Bool :=
  jsToLowerCase a == jsToLowerCase b

/-- Newline cut per the spec: "first cut the string at the first newline
character, if any, appending ... if a cut occurred". -/
def specNewlineCut (s : String) : String :=
  if '\n' ∈ s.toList then
    String.mk (s.toList.takeWhile (fun c => c != '\n')) ++ "..."
  else s

/-- Length cut per the spec: "if the result exceeds `limit` characters, cut
to the first `limit` and append ... again". -/
def specLengthCut (limit : Nat) (s : String) : String :=
  if s.length > limit then String.mk (s.toList.take limit) ++ "..." else s

/-! ### Concrete inputs used by witnesses and counterexamples -/

def sampleAuthor : GhUser :=
  { login := "alice",
    avatar_url := "https://avatars.example/alice",
    html_url := "https://github.com/alice" }

def sampleMerger : GhUser :=
  { login := "bob",
    avatar_url := "https://avatars.example/bob",
    html_url := "https://github.com/bob" }

def sampleReviewer : GhUser :=
  { login := "carol",
    avatar_url := "https://avatars.example/carol",
    html_url := "https://github.com/carol" }

/-- A payload carrying the (lowercase) target label, used as the base of
the concrete scenarios below. -/
def samplePayload : Payload :=
  { label := { name := "tuvix" },
    pull_request :=
      { html_url := "https://github.com/octo/repo/pull/7",
        title := "Fix the warp core",
        created_at := "2024-01-01T00:00:00.000Z",
        number := 7,
        user := sampleAuthor,
        labels := [{ name := "tuvix" }],
        merged := false,
        merged_at := "2024-01-02T03:04:05.000Z",
        merged_by := sampleMerger,
        closed_at := "2024-01-02T06:07:08.000Z",
        base := { ref := "main" } },
    repository :=
      { full_name := "octo/repo",
        html_url := "https://github.com/octo/repo" },
    sender := sampleAuthor,
    review :=
      { state := "approved",
        body := "Looks good",
        user := sampleReviewer,
        submitted_at := "2024-01-01T12:00:00.000Z" } }

/-- Failing input for C1: the PR carries the label `Tuvix` and the configured
target label is `Tuvix`; line 13 lowercases only the configured side. -/
def c1Payload : Payload :=
  { samplePayload with
    pull_request := { samplePayload.pull_request with labels := [{ name := "Tuvix" }] } }

/-- Failing input for C2: a single workspace whose channel listing rejects. -/
def c2Client : ClientBehavior :=
  { conversations := .rejected "boom",
    postMessage := fun _ => .rejected "unreachable" }

def c2Msg : SlackMessage := { text := some "hello" }

/-- A client whose channel listing resolves successfully with `cs` and
whose posts behave as `pm`. -/
def mkListingClient (cs : List SlackChannel) (pm : String → ApiCall PostMessageResponse) :
    ClientBehavior :=
  { conversations := .resolved { ok := true, channels := cs },
    postMessage := pm }

/-- Scenario for C4, second workspace: two channels, the post to `bad` is
refused by the API, the post to `good` is accepted. -/
def c4TwoChannelClient : ClientBehavior :=
  mkListingClient
    [{ id := "Cbad", name_normalized := "bad" },
     { id := "Cgood", name_normalized := "good" }]
    (fun ch =>
      if ch == "Cbad" then .resolved { ok := false, error := "channel_not_found" }
      else .resolved { ok := true })

def c4Msg : SlackMessage := { text := some "" }

/-- Witness payload for C5: the targeted PR was merged. -/
def c5Payload : Payload :=
  { samplePayload with
    pull_request := { samplePayload.pull_request with merged := true } }

/-- Witness payload for C7: a targeted review in the `commented` state. -/
def c7Payload : Payload :=
  { samplePayload with
    review := { samplePayload.review with state := "commented" } }

/-- Witness client for C9: one workspace with a single channel accepting
the post. -/
def c9Client : ClientBehavior :=
  mkListingClient [{ id := "C1", name_normalized := "general" }]
    (fun _ => .resolved { ok := true })

def c9Msg : SlackMessage :=
  { text := some "",
    attachments := [{ color := "#607D8B", title := "Closed #7" }] }

/-- Witness payload for C10: a targeted approved review with an empty body. -/
def c10Payload : Payload :=
  { samplePayload with
    review := { samplePayload.review with body := "" } }

/-! ### Helper lemmas -/

/-- When `findIdx?` locates the first occurrence of `c` at index `i`,
the character occurs in the list and taking `i` elements is exactly
taking while the character has not yet appeared. -/
theorem findIdx?_char_spec (c : Char) :
    ∀ (l : List Char) (i : Nat),
      l.findIdx? (fun x => x == c) = some i →
      c ∈ l ∧ l.take i = l.takeWhile (fun x => x != c) := by
  intro l
  induction l with
  | nil => intro i h; simp [List.findIdx?] at h
  | cons a l ih =>
    intro i h
    rw [List.findIdx?_cons] at h
    by_cases ha : a == c
    · simp [ha] at h
      subst h
      have : a = c := by exact eq_of_beq ha
      simp [this, List.takeWhile]
    · simp [ha] at h
      obtain ⟨j, hj, hij⟩ := h
      obtain ⟨hmem, htake⟩ := ih j hj
      subst hij
      constructor
      · exact List.mem_cons_of_mem _ hmem
      · simp [List.takeWhile, ha, htake, bne]

/-- When `findIdx?` finds no occurrence, the character is absent. -/
theorem findIdx?_char_none (c : Char) (l : List Char)
    (h : l.findIdx? (fun x => x == c) = none) : c ∉ l := by
  rw [List.findIdx?_eq_none_iff] at h
  intro hmem
  have := h c hmem
  simp at this

/-- The code-derived newline cut agrees with the one written from the
words of the spec. -/
theorem cutAtFirstNewline_eq_spec (s : String) :
    cutAtFirstNewline s = specNewlineCut s := by
  unfold cutAtFirstNewline specNewlineCut jsIndexOfChar
  cases h : s.toList.findIdx? (fun x => x == '\n') with
  | none =>
    have hnm : ¬ ('\n' ∈ s.data) := findIdx?_char_none _ _ h
    simp [hnm]
  | some i =>
    obtain ⟨hmem, htake⟩ := findIdx?_char_spec _ _ _ h
    have hmem' : '\n' ∈ s.data := hmem
    have htake' : List.take i s.data = List.takeWhile (fun x => x != '\n') s.data := htake
    simp [hmem', jsSubstring, htake']

/-- The code-derived length cut agrees with the one written from the
words of the spec. -/
theorem trunc_eq_spec (s : String) (n : Nat) :
    trunc s n = specLengthCut n s := by
  unfold trunc specLengthCut jsSubstring
  simp

/-- Length of a string built from a character list. -/
theorem length_mk (l : List Char) : (String.mk l).length = l.length := rfl

/-- Every entry a single workspace callback delivers is the input message
with only the channel id added. -/
theorem mem_runWorkspaceCallback_delivered (client : ClientBehavior)
    (msg : SlackMessage) (entry : String × SlackMessage)
    (h : entry ∈ (runWorkspaceCallback msg client).1) :
    entry.2 = { msg with channel := some entry.1 } := by
  unfold runWorkspaceCallback at h
  cases hg : getChannels client with
  | error e => rw [hg] at h; simp at h
  | ok channels =>
    rw [hg] at h
    simp only [List.filterMap_map, List.mem_filterMap] at h
    obtain ⟨ch, _, hch⟩ := h
    unfold Function.comp postToChannel at hch
    cases hpm : client.postMessage ch.id with
    | rejected e => rw [hpm] at hch; simp at hch
    | resolved r =>
      rw [hpm] at hch
      by_cases hr : r.ok
      · simp [hr] at hch
        rw [← hch]
      · simp [hr] at hch

/-! ### Claims -/

/-- Claim C1 (settled as a code bug): the claim says that for `closed`,
`reopened` and `review.submitted` events a message is produced iff the PR
carries a label case-insensitively equal to the configured target label.
The code lowercases only the configured side (line 13) and then compares
with strict equality (line 23), so a PR labelled `Tuvix` under the
configured label `Tuvix` matches case-insensitively yet produces no
message from any of the three handlers. -/
theorem c1_case_sensitivity_counterexample :
    (∃ l ∈ c1Payload.pull_request.labels, caseInsensitiveEq l.name "Tuvix" = true) ∧
    isTargeted (mkPrLabel "Tuvix") c1Payload = false ∧
    handleClosed (mkPrLabel "Tuvix") c1Payload = none ∧
    handleReopened (mkPrLabel "Tuvix") c1Payload = none ∧
    handleReviewSubmitted (mkPrLabel "Tuvix") c1Payload = none := by
  refine ⟨⟨{ name := "Tuvix" }, by decide, by decide⟩, by decide, rfl, rfl, rfl⟩

/-- Claim C2 (settled as a code bug): the claim says every recorded
delivery error is emitted as a log line after all attempts complete.  In
the code the `errors.length` check runs synchronously before any async
callback has resumed past its first `await`, so on a workspace whose
channel listing fails the error is recorded but the log output stays
empty. -/
theorem c2_errors_never_logged :
    (sendSlackMessage [c2Client] c2Msg).errors
      = ["Could not retrieve list of channels: Error: boom"] ∧
    (sendSlackMessage [c2Client] c2Msg).errors.length > 0 ∧
    (sendSlackMessage [c2Client] c2Msg).logged = [] := by
  exact ⟨rfl, by decide, rfl⟩

/-- Claim C3 (confirmed): the composed review-body truncation first cuts
at the first newline appending an ellipsis iff a cut occurred, then cuts
the intermediate result to its first 60 characters appending an ellipsis
iff it exceeded 60; the three example bodies of the spec behave as
stated. -/
theorem c3_truncation :
    (∀ s : String, trunc (cutAtFirstNewline s) 60 = specLengthCut 60 (specNewlineCut s)) ∧
    trunc (cutAtFirstNewline "first line\nsecond line") 60 = "first line..." ∧
    trunc (cutAtFirstNewline (String.mk (List.replicate 70 'a'))) 60
      = String.mk (List.replicate 60 'a') ++ "..." ∧
    (∀ s : String, '\n' ∉ s.toList → s.length < 60 →
      trunc (cutAtFirstNewline s) 60 = s) := by
  refine ⟨?_, by decide, by decide, ?_⟩
  · intro s
    rw [cutAtFirstNewline_eq_spec, trunc_eq_spec]
  · intro s hnl hlen
    rw [cutAtFirstNewline_eq_spec, trunc_eq_spec]
    unfold specNewlineCut specLengthCut
    have hnl' : ¬ ('\n' ∈ s.data) := hnl
    simp [hnl']
    omega

/-- Witness for C3 at the concrete newline-free short body. -/
theorem c3_truncation_witness :
    ('\n' ∉ "short".toList) ∧ "short".length < 60 ∧
    trunc (cutAtFirstNewline "short") 60 = "short" :=
  ⟨by decide, by decide, c3_truncation.2.2.2 "short" (by decide) (by decide)⟩

/-- Claim C4 (confirmed): delivery is isolated per workspace and per
channel — the deliveries and errors of one workspace are unaffected by
its siblings, the deliveries of sibling channels are unaffected by one
channel, and in the concrete two-workspace scenario (first listing fails;
second has two channels of which one post fails) the surviving channel
still receives the message while one workspace-level and one
channel-level error are recorded. -/
theorem c4_isolation :
    (∀ (pre : List ClientBehavior) (c : ClientBehavior) (post : List ClientBehavior)
        (msg : SlackMessage),
      (sendSlackMessage (pre ++ c :: post) msg).delivered
        = (sendSlackMessage pre msg).delivered ++ (runWorkspaceCallback msg c).1
            ++ (sendSlackMessage post msg).delivered ∧
      (sendSlackMessage (pre ++ c :: post) msg).errors
        = (sendSlackMessage pre msg).errors ++ (runWorkspaceCallback msg c).2
            ++ (sendSlackMessage post msg).errors) ∧
    (∀ (pm : String → ApiCall PostMessageResponse) (pre : List SlackChannel)
        (c : SlackChannel) (post : List SlackChannel) (msg : SlackMessage),
      (runWorkspaceCallback msg (mkListingClient (pre ++ c :: post) pm)).1
        = (runWorkspaceCallback msg (mkListingClient pre pm)).1
            ++ (runWorkspaceCallback msg (mkListingClient [c] pm)).1
            ++ (runWorkspaceCallback msg (mkListingClient post pm)).1) ∧
    (sendSlackMessage [c2Client, c4TwoChannelClient] c4Msg).delivered
      = [("Cgood", { c4Msg with channel := some "Cgood" })] ∧
    (sendSlackMessage [c2Client, c4TwoChannelClient] c4Msg).errors
      = ["Could not retrieve list of channels: Error: boom",
         "Unable to send message to slack channel bad: Error: channel_not_found"] := by
  refine ⟨?_, ?_, by decide, by decide⟩
  · intro pre c post msg
    constructor <;>
      simp [sendSlackMessage, List.map_append, List.flatten_append, List.append_assoc]
  · intro pm pre c post msg
    have hpc : ∀ conv : ApiCall ConversationsResponse,
        postToChannel { conversations := conv, postMessage := pm } msg
          = postToChannel { conversations := ApiCall.rejected "", postMessage := pm } msg :=
      fun _ => rfl
    simp only [runWorkspaceCallback, mkListingClient, getChannels]
    simp [hpc, List.map_append, List.filterMap_append, List.filterMap_cons,
      List.filterMap_map]
    cases (postToChannel { conversations := ApiCall.rejected "", postMessage := pm } msg c).1 <;> simp

/-- Claim C5 (confirmed): on a targeted `closed` event the message has
neutral grey color; when merged it is titled with the merge target and
attributed to the merging user at the merge timestamp, otherwise titled
as closed and attributed to the sender at the close timestamp. -/
theorem c5_closed_branching (PR_LABEL : String) (p : Payload)
    (h : isTargeted PR_LABEL p = true) :
    ∃ a : Attachment,
      handleClosed PR_LABEL p = some { text := some "", attachments := [a] } ∧
      a.color = "#607D8B" ∧
      (p.pull_request.merged = true →
        a.title = "Merged #" ++ toString p.pull_request.number ++ " into "
            ++ p.pull_request.base.ref ∧
        a.author_name = p.pull_request.merged_by.login ∧
        a.author_icon = p.pull_request.merged_by.avatar_url ∧
        a.author_link = p.pull_request.merged_by.html_url ∧
        a.ts = tsOfISO p.pull_request.merged_at) ∧
      (p.pull_request.merged = false →
        a.title = "Closed #" ++ toString p.pull_request.number ∧
        a.author_name = p.sender.login ∧
        a.author_icon = p.sender.avatar_url ∧
        a.author_link = p.sender.html_url ∧
        a.ts = tsOfISO p.pull_request.closed_at) := by
  unfold handleClosed
  rw [h]
  cases hm : p.pull_request.merged with
  | true =>
    refine ⟨{ color := "#607D8B",
              title_link := p.pull_request.html_url,
              footer := p.repository.full_name,
              footer_icon := ghMarkIcon,
              author_name := p.pull_request.merged_by.login,
              author_icon := p.pull_request.merged_by.avatar_url,
              author_link := p.pull_request.merged_by.html_url,
              title := "Merged #" ++ toString p.pull_request.number ++ " into "
                ++ p.pull_request.base.ref,
              ts := tsOfISO p.pull_request.merged_at }, ?_, rfl,
            fun _ => ⟨rfl, rfl, rfl, rfl, rfl⟩, fun hc => by simp at hc⟩
    simp [hm]
  | false =>
    refine ⟨{ color := "#607D8B",
              title_link := p.pull_request.html_url,
              footer := p.repository.full_name,
              footer_icon := ghMarkIcon,
              author_name := p.sender.login,
              author_icon := p.sender.avatar_url,
              author_link := p.sender.html_url,
              title := "Closed #" ++ toString p.pull_request.number,
              ts := tsOfISO p.pull_request.closed_at }, ?_, rfl,
            fun hc => by simp [hm] at hc, fun _ => ⟨rfl, rfl, rfl, rfl, rfl⟩⟩
    simp [hm]

/-- Witness for C5 at the concrete merged targeted payload. -/
theorem c5_closed_branching_witness :
    ∃ a : Attachment,
      handleClosed "tuvix" c5Payload = some { text := some "", attachments := [a] } :=
  match c5_closed_branching "tuvix" c5Payload (by decide) with
  | ⟨a, ha, _⟩ => ⟨a, ha⟩

/-- Claim C6 (confirmed): a `labeled` event produces a message iff the
event label case-insensitively equals the configured target label, and
the full label set of the PR is never consulted — replacing it leaves the
handler output unchanged. -/
theorem c6_labeled_rule (envLabel : String) (p : Payload) :
    ((handleLabeled (mkPrLabel envLabel) p).isSome = true ↔
      caseInsensitiveEq p.label.name envLabel = true) ∧
    (∀ ls : List GhLabel,
      handleLabeled (mkPrLabel envLabel)
          { p with pull_request := { p.pull_request with labels := ls } }
        = handleLabeled (mkPrLabel envLabel) p) := by
  constructor
  · unfold handleLabeled caseInsensitiveEq mkPrLabel
    by_cases hb : jsToLowerCase p.label.name == jsToLowerCase envLabel
    · simp [hb, bne]
    · simp [hb, bne]
  · intro ls
    rfl

/-- Claim C7 (confirmed): a targeted `review.submitted` event produces no
message when the review state is neither `approved` nor
`changes_requested`; an approved review yields the green approved title
and a changes-requested review the red changes-requested title, both
attributed to the reviewer. -/
theorem c7_review_states (PR_LABEL : String) (p : Payload)
    (h : isTargeted PR_LABEL p = true) :
    (p.review.state ≠ "approved" ∧ p.review.state ≠ "changes_requested" →
      handleReviewSubmitted PR_LABEL p = none) ∧
    (p.review.state = "approved" →
      ∃ a : Attachment,
        handleReviewSubmitted PR_LABEL p = some { text := some "", attachments := [a] } ∧
        a.color = "#388E3C" ∧
        a.title = "Approved #" ++ toString p.pull_request.number ++ " - "
          ++ p.pull_request.title ∧
        a.author_name = p.review.user.login ∧
        a.author_icon = p.review.user.avatar_url ∧
        a.author_link = p.review.user.html_url ∧
        a.ts = tsOfISO p.review.submitted_at) ∧
    (p.review.state = "changes_requested" →
      ∃ a : Attachment,
        handleReviewSubmitted PR_LABEL p = some { text := some "", attachments := [a] } ∧
        a.color = "#D33A49" ∧
        a.title = "Changes requested on #" ++ toString p.pull_request.number ++ " - "
          ++ p.pull_request.title ∧
        a.author_name = p.review.user.login ∧
        a.author_icon = p.review.user.avatar_url ∧
        a.author_link = p.review.user.html_url ∧
        a.ts = tsOfISO p.review.submitted_at) := by
  refine ⟨?_, ?_, ?_⟩
  · rintro ⟨h1, h2⟩
    unfold handleReviewSubmitted
    rw [h]
    simp [h1, h2]
  · intro hs
    refine ⟨{ author_name := p.review.user.login,
              author_icon := p.review.user.avatar_url,
              author_link := p.review.user.html_url,
              title_link := p.pull_request.html_url,
              footer := p.repository.full_name,
              footer_icon := ghMarkIcon,
              ts := tsOfISO p.review.submitted_at,
              text := some (trunc (cutAtFirstNewline p.review.body) 60),
              color := "#388E3C",
              title := "Approved #" ++ toString p.pull_request.number ++ " - "
                ++ p.pull_request.title }, ?_, rfl, rfl, rfl, rfl, rfl, rfl⟩
    unfold handleReviewSubmitted
    rw [h]
    simp [hs]
  · intro hs
    refine ⟨{ author_name := p.review.user.login,
              author_icon := p.review.user.avatar_url,
              author_link := p.review.user.html_url,
              title_link := p.pull_request.html_url,
              footer := p.repository.full_name,
              footer_icon := ghMarkIcon,
              ts := tsOfISO p.review.submitted_at,
              text := some (trunc (cutAtFirstNewline p.review.body) 60),
              color := "#D33A49",
              title := "Changes requested on #" ++ toString p.pull_request.number ++ " - "
                ++ p.pull_request.title }, ?_, rfl, rfl, rfl, rfl, rfl, rfl⟩
    unfold handleReviewSubmitted
    rw [h]
    simp [hs]

/-- Witness for C7 at a concrete targeted review in the `commented`
state. -/
theorem c7_review_states_witness :
    handleReviewSubmitted "tuvix" c7Payload = none :=
  (c7_review_states "tuvix" c7Payload (by decide)).1 (by decide)

/-- Claim C8 (confirmed): ISO-8601 timestamps convert to Unix-epoch
seconds without rounding — dividing the millisecond count by 1000 is
exact — and the example timestamp converts to 1704067200. -/
theorem c8_timestamp_conversion :
    tsOfISO "2024-01-01T00:00:00.000Z" = 1704067200 ∧
    (∀ ms : Nat, epochSeconds ms * 1000 = (ms : ℚ)) := by
  constructor
  · have h : parseISOms "2024-01-01T00:00:00.000Z" = 1704067200000 := by decide
    unfold tsOfISO epochSeconds
    rw [h]
    norm_num
  · intro ms
    unfold epochSeconds
    field_simp

/-- Claim C9 (confirmed): each handler builds at most one message per
event, and every message the fan-out delivers is the input message copied
with only the channel id added, hence identical across destinations. -/
theorem c9_single_message_fanout :
    (∀ (PR_LABEL : String) (e : EventKind) (p : Payload),
      ((handleEvent PR_LABEL e p).toList).length ≤ 1) ∧
    (∀ (clients : List ClientBehavior) (msg : SlackMessage)
        (entry : String × SlackMessage),
      entry ∈ (sendSlackMessage clients msg).delivered →
      entry.2 = { msg with channel := some entry.1 }) := by
  constructor
  · intro PR_LABEL e p
    cases h : handleEvent PR_LABEL e p <;> simp
  · intro clients msg entry hmem
    unfold sendSlackMessage at hmem
    simp only [List.mem_flatten, List.mem_map] at hmem
    obtain ⟨l, ⟨pair, ⟨client, _, hpair⟩, hl⟩, hentry⟩ := hmem
    subst hpair
    subst hl
    exact mem_runWorkspaceCallback_delivered client msg entry hentry

/-- Witness for C9 at a concrete one-workspace, one-channel delivery. -/
theorem c9_single_message_fanout_witness :
    (("C1", { c9Msg with channel := some "C1" }) : String × SlackMessage).2
      = { c9Msg with channel := some "C1" } :=
  c9_single_message_fanout.2 [c9Client] c9Msg _ (by
    show _ ∈ [("C1", { c9Msg with channel := some "C1" })]
    exact List.mem_singleton.mpr rfl)

/-- Claim C10 (confirmed): the formatted review text is at most 63
characters — the length cut tests the intermediate string including any
newline-cut ellipsis, and appends its own ellipsis beyond the kept
60-character prefix; an empty body stays empty and the message is still
sent (shown on a concrete targeted approved review). -/
theorem c10_length_bound :
    (∀ s : String, (trunc (cutAtFirstNewline s) 60).length ≤ 63) ∧
    trunc (cutAtFirstNewline "") 60 = "" ∧
    trunc (cutAtFirstNewline (String.mk (List.replicate 58 'a') ++ "\nrest")) 60
      = String.mk (List.replicate 58 'a') ++ "....." ∧
    handleReviewSubmitted "tuvix" c10Payload
      = some { text := some "",
               attachments := [
                 { author_name := "carol",
                   author_icon := "https://avatars.example/carol",
                   author_link := "https://github.com/carol",
                   title_link := "https://github.com/octo/repo/pull/7",
                   footer := "octo/repo",
                   footer_icon := ghMarkIcon,
                   ts := tsOfISO "2024-01-01T12:00:00.000Z",
                   text := some "",
                   color := "#388E3C",
                   title := "Approved #7 - Fix the warp core" }] } := by
  refine ⟨?_, by decide, by decide, ?_⟩
  · intro s
    generalize cutAtFirstNewline s = t
    unfold trunc
    by_cases h : t.length > 60
    · rw [if_pos h, String.length_append]
      have h1 : (jsSubstring t 0 60).length ≤ 60 := by
        simp [jsSubstring, length_mk]
      have h2 : ("..." : String).length = 3 := by decide
      omega
    · rw [if_neg h]
      omega
  · rfl

end TuvixBot
